import Mathlib

/-
  Verification of the bd-pipeline repository (Citizen Codex BD Pipeline)
  against its natural-language specification.

  Shallow embedding. The repository ships the Supabase schema
  (supabase/schema.sql), the Next.js dashboard (frontend/...), and the
  README; the FastAPI backend (scrapers, deduplicator, LLM qualifier, run
  coordinator, scheduler under backend/) is referenced by the README and
  the dashboard API client but its source is not part of the snapshot.
  Definitions taken from shipped code are embedded from that code;
  definitions for the missing backend are modelled from the specification
  and carry a doc comment starting with: Modelled from the spec.
-/

namespace BD

/-! ## Definitions embedded from shipped source -/

/-- Embedded from frontend/lib/constants.js: the SERVICE_LABELS object,
as the list of (key, label) pairs in source order. -/
def SERVICE_LABELS : List (String × String) :=
  [("knowledge_systems", "Knowledge Systems"),
   ("digital_tools", "Digital Tools"),
   ("interactive_tools", "Interactive Tools"),
   ("digital_storytelling", "Digital Storytelling"),
   ("custom_applications", "Custom Apps")]

/-- The fixed service taxonomy: the keys of SERVICE_LABELS. -/
def SERVICE_TAXONOMY : List String := SERVICE_LABELS.map Prod.fst

/-- Embedded from supabase/schema.sql: the values of the Postgres enum
type lead_status, in declaration order. -/
def lead_status : List String :=
  ["new", "reviewing", "qualified", "disqualified", "contacted", "archived"]

/-- A Postgres enum column accepts exactly the declared enum values:
validation of a candidate status value against lead_status. -/
def validateLeadStatus (s : String) : Bool := lead_status.contains s

/-- Storing a value into a lead_status column: the enum cast succeeds and
stores the value only when it is one of the declared enum values;
otherwise the write fails validation and nothing is stored. -/
def storeStatus (s : String) : Option String :=
  if validateLeadStatus s then some s else none

/-- Embedded from frontend/components/LeadCard.jsx (actions block): the
status-change targets the dashboard offers for a lead with the given
status.  The Qualify and Disqualify buttons render when
['new', 'reviewing'].includes(lead.status); the Mark Contacted button
renders when lead.status === 'qualified'. -/
def statusChangeTargets (status : String) : List String :=
  (if ["new", "reviewing"].contains status then ["qualified", "disqualified"] else [])
    ++ (if status = "qualified" then ["contacted"] else [])

/-- The edge set claimed by the specification's status-machine property:
new → qualified, new → disqualified, qualified → contacted,
any → archived. -/
def claimedEdge (f t : String) : Bool :=
  (f = "new" && t = "qualified") || (f = "new" && t = "disqualified") ||
    (f = "qualified" && t = "contacted") || (t = "archived")

/-- The claimed edge set amended with the two reviewing edges the
dashboard actually offers: reviewing → qualified and
reviewing → disqualified. -/
def amendedEdge (f t : String) : Bool :=
  ((f = "new" || f = "reviewing") && (t = "qualified" || t = "disqualified")) ||
    (f = "qualified" && t = "contacted") || (t = "archived")

/-- JavaScript Math.round: round half toward positive infinity,
Math.round x = floor (x + 0.5). -/
def jsRound (x : ℚ) : ℤ := (x + 1 / 2).floor

/-- Embedded from frontend/components/LeadCard.jsx line 20: the badge
percentage, computed behind a JavaScript truthiness check —
lead.confidence_score ? Math.round(lead.confidence_score * 100) : null.
A numeric confidence is falsy exactly when it is 0, so both a missing
score and a score of exactly 0 yield null. -/
def confPct (score : Option ℚ) : Option ℤ :=
  match score with
  | none => none
  | some s => if s = 0 then none else some (jsRound (s * 100))

/-- Embedded from frontend/components/LeadCard.jsx line 34: the badge
renders confPct ?? '?'. -/
def badgeText (score : Option ℚ) : String :=
  match confPct score with
  | some n => toString n
  | none => "?"

/-- A lead as the dashboard state holds it: id and status (the fields
handleStatusChange touches). -/
structure DashLead where
  id : ℕ
  status : String
deriving DecidableEq

/-- Embedded from frontend/app/page.jsx lines 43-56 (the optimistic
setLeads call): map over the lead list, replacing the status of the lead
with the matching id. -/
def applyLocalStatus (leads : List DashLead) (leadId : ℕ) (newStatus : String) :
    List DashLead :=
  leads.map (fun l => if l.id = leadId then { l with status := newStatus } else l)

/-- Outcome of the PATCH request handleStatusChange issues: it succeeds,
it fails (the catch block only logs), or it is never sent because the
dashboard is in demo mode (isLive is false). -/
inductive PatchOutcome where
  | success
  | failure
  | notSent
deriving DecidableEq

/-- The persisted (backend) lead list after the PATCH: updated only when
the PATCH succeeds; a failed or never-sent PATCH leaves it unchanged. -/
def persistedAfter (backend : List DashLead) (leadId : ℕ) (newStatus : String) :
    PatchOutcome → List DashLead
  | PatchOutcome.success => applyLocalStatus backend leadId newStatus
  | PatchOutcome.failure => backend
  | PatchOutcome.notSent => backend

/-- Embedded from frontend/app/page.jsx lines 43-56: handleStatusChange
updates the local list unconditionally (optimistic update, before and
regardless of the PATCH), then issues the PATCH only when isLive; a PATCH
failure is caught and logged, with no rollback of the local update.
Returns (local list after, persisted list after). -/
def handleStatusChange (localLeads backend : List DashLead) (isLive : Bool)
    (leadId : ℕ) (newStatus : String) (patchFails : Bool) :
    List DashLead × List DashLead :=
  let localAfter := applyLocalStatus localLeads leadId newStatus
  let outcome :=
    if isLive then (if patchFails then PatchOutcome.failure else PatchOutcome.success)
    else PatchOutcome.notSent
  (localAfter, persistedAfter backend leadId newStatus outcome)

/-! ## Pipeline model (backend not in the snapshot; modelled from the spec) -/

/-- Modelled from the spec (section 3, RawOpportunity): the transient
adapter-produced record. Enrichment fields are omitted; no claim
involves them. -/
structure RawOpportunity where
  orgName : String
  title : String
  summary : String
  sourceUrl : String
  sourceType : String
  sourceName : String
deriving DecidableEq

/-- Modelled from the spec (section 4.2, normalization): lowercase,
strip punctuation, collapse whitespace. -/
def normalizeText (s : String) : String :=
  let lowered := String.mk (s.toList.map Char.toLower)
  let stripped := String.mk (lowered.toList.filter (fun c => c.isAlphanum || c.isWhitespace))
  String.intercalate " " ((stripped.split Char.isWhitespace).filter (fun w => !w.isEmpty))

/-- Modelled from the spec (section 4.2, fingerprint): a deterministic
digest of normalized title, organization name and the first 500
characters of the normalized summary. The missing backend's hash
function is modelled by the normalized text itself (an injective
stand-in for the digest); the spec leaves the truncation order open
(section 9), so truncation is applied to the already-normalized
summary, the reading under which the spec's own idempotence property is
coherent. -/
def fingerprint (r : RawOpportunity) : String :=
  normalizeText r.title ++ "|" ++ normalizeText r.orgName ++ "|"
    ++ (normalizeText r.summary).take 500

/-- Modelled from the spec (section 3 Lead / section 6 leads columns):
the persisted lead fields the claims are about. -/
structure Lead where
  orgName : String
  title : String
  summary : String
  confidence : Option ℚ
  reasoning : String
  serviceMatches : List String
  intentSignals : List String
  isGovernment : Bool
  status : String
  contentHash : String
deriving DecidableEq

/-- The persistence collaborator's lead store, keyed by content hash. -/
structure Store where
  leads : List Lead
deriving DecidableEq

/-- Modelled from the spec (section 4.2, exists lookup): whether a lead
with the given content hash is already persisted. -/
def hashExists (store : Store) (fp : String) : Bool :=
  store.leads.any (fun l => l.contentHash = fp)

/-- Modelled from the spec (section 6, insertLeadIfAbsent):
insert-if-absent on the content hash; returns the store and whether the
lead was inserted (true) or was a duplicate (false). -/
def insertLeadIfAbsent (store : Store) (l : Lead) : Store × Bool :=
  if hashExists store l.contentHash then (store, false)
  else ({ leads := store.leads ++ [l] }, true)

/-- Modelled from the spec (section 4.3): the model's raw structured
response, before validation and bounding. -/
structure RawQualification where
  confidence : ℚ
  reasoning : String
  tags : List String
  signals : List String
  isGov : Bool
deriving DecidableEq

/-- Modelled from the spec (section 4.3): the validated qualification
result. -/
structure QualificationResult where
  confidence : ℚ
  reasoning : String
  serviceMatches : List String
  intentSignals : List String
  isGovernment : Bool
deriving DecidableEq

/-- Clamp a rational into the closed interval [0, 1]. -/
def clamp01 (x : ℚ) : ℚ := max 0 (min 1 x)

/-- Modelled from the spec (section 4.3): validate and bound a parsed
model response — confidence clamped to [0, 1], service-match tags not in
the taxonomy dropped (not fatal), intent signals and the government flag
passed through. -/
def parseQualification (taxonomy : List String) (raw : RawQualification) :
    QualificationResult :=
  { confidence := clamp01 raw.confidence
    reasoning := raw.reasoning
    serviceMatches := raw.tags.filter (fun t => taxonomy.contains t)
    intentSignals := raw.signals
    isGovernment := raw.isGov }

/-- Modelled from the spec: parameters of one run — the fixed taxonomy,
the configured qualification-confidence threshold, and the qualifier as
an oracle that either returns the model's structured response or fails
with a QualificationError message (timeout, malformed output, ...)
after its bounded retries. -/
structure PipelineParams where
  taxonomy : List String
  threshold : ℚ
  qualify : RawOpportunity → Except String RawQualification

/-- Modelled from the spec (section 4.4 step 3): the lead persisted for a
successfully qualified opportunity — status new, confidence and
structured signals from the validated result, content hash as
deduplication key. -/
def mkLeadOk (fp : String) (r : RawOpportunity) (q : QualificationResult) : Lead :=
  { orgName := r.orgName
    title := r.title
    summary := r.summary
    confidence := some q.confidence
    reasoning := q.reasoning
    serviceMatches := q.serviceMatches
    intentSignals := q.intentSignals
    isGovernment := q.isGovernment
    status := "new"
    contentHash := fp }

/-- Modelled from the spec (sections 4.3 and 7): the lead persisted when
qualification fails — null confidence, status new, no structured
signals. -/
def mkLeadErr (fp : String) (r : RawOpportunity) : Lead :=
  { orgName := r.orgName
    title := r.title
    summary := r.summary
    confidence := none
    reasoning := ""
    serviceMatches := []
    intentSignals := []
    isGovernment := false
    status := "new"
    contentHash := fp }

/-- The error note recorded on the run when qualification of one item
fails; it references the item by title. -/
def qualErrorNote (r : RawOpportunity) (msg : String) : String :=
  "qualification failed: " ++ r.title ++ ": " ++ msg

/-- The error note recorded on the run when a source's fetch fails; it
carries the source name and the cause. -/
def sourceErrorNote (name msg : String) : String :=
  "source fetch failed: " ++ name ++ ": " ++ msg

/-- The effect of part of a run on the pipeline state: the updated store
and the deltas contributed to the run's counters and error list. -/
structure Effect where
  store : Store
  dFound : ℕ
  dNew : ℕ
  dQualified : ℕ
  dErrors : List String

/-- Modelled from the spec (section 4.4 step 3): process one
RawOpportunity — compute the fingerprint; if it exists, skip (counted in
items found, not an error); otherwise qualify and persist a new lead
with status new, counting it as new and, when the clamped confidence
exceeds the threshold, as qualified; a QualificationError still persists
the lead (null confidence) and records an error note. -/
def itemEffect (p : PipelineParams) (store : Store) (r : RawOpportunity) : Effect :=
  let fp := fingerprint r
  if hashExists store fp then
    { store := store, dFound := 1, dNew := 0, dQualified := 0, dErrors := [] }
  else
    match p.qualify r with
    | Except.ok raw =>
        let q := parseQualification p.taxonomy raw
        { store := (insertLeadIfAbsent store (mkLeadOk fp r q)).1
          dFound := 1
          dNew := 1
          dQualified := if p.threshold < q.confidence then 1 else 0
          dErrors := [] }
    | Except.error msg =>
        { store := (insertLeadIfAbsent store (mkLeadErr fp r)).1
          dFound := 1
          dNew := 1
          dQualified := 0
          dErrors := [qualErrorNote r msg] }

/-- Process a source's items in fetch order, composing their effects. -/
def itemsEffect (p : PipelineParams) (store : Store) :
    List RawOpportunity → Effect
  | [] => { store := store, dFound := 0, dNew := 0, dQualified := 0, dErrors := [] }
  | r :: rs =>
      let e1 := itemEffect p store r
      let e2 := itemsEffect p e1.store rs
      { store := e2.store
        dFound := e1.dFound + e2.dFound
        dNew := e1.dNew + e2.dNew
        dQualified := e1.dQualified + e2.dQualified
        dErrors := e1.dErrors ++ e2.dErrors }

/-- The observed behavior of one source's adapter in one run: either a
finite list of RawOpportunities or a SourceFetchError message. -/
inductive FetchResult where
  | ok (items : List RawOpportunity)
  | err (msg : String)

/-- One source in a run: its name and its adapter's fetch result. -/
structure SourceOutcome where
  name : String
  result : FetchResult

/-- Modelled from the spec (section 4.4 step 2): one source's effect — a
SourceFetchError is recorded against the run and touches nothing else;
a successful fetch processes the items in order. -/
def sourceEffect (p : PipelineParams) (store : Store) (src : SourceOutcome) : Effect :=
  match src.result with
  | FetchResult.err msg =>
      { store := store, dFound := 0, dNew := 0, dQualified := 0
        dErrors := [sourceErrorNote src.name msg] }
  | FetchResult.ok items => itemsEffect p store items

/-- Process every source of the run in order, composing their effects;
one source's failure never aborts the run. -/
def sourcesEffect (p : PipelineParams) (store : Store) :
    List SourceOutcome → Effect
  | [] => { store := store, dFound := 0, dNew := 0, dQualified := 0, dErrors := [] }
  | s :: ss =>
      let e1 := sourceEffect p store s
      let e2 := sourcesEffect p e1.store ss
      { store := e2.store
        dFound := e1.dFound + e2.dFound
        dNew := e1.dNew + e2.dNew
        dQualified := e1.dQualified + e2.dQualified
        dErrors := e1.dErrors ++ e2.dErrors }

/-- The finalized ScrapeRun record: aggregate counts, accumulated error
notes, run status. -/
structure ScrapeRun where
  itemsFound : ℕ
  itemsNew : ℕ
  itemsQualified : ℕ
  errors : List String
  status : String
deriving DecidableEq

/-- Result of one run: the persisted store and the finalized ScrapeRun
row. -/
structure RunState where
  store : Store
  run : ScrapeRun

/-- Modelled from the spec (section 4.4): drive one scrape run across
the given sources, then finalize the ScrapeRun with aggregate counts
and the accumulated errors and mark it completed (all sources
attempted, regardless of per-source errors; the coordinator-level
faults that mark a run failed — persistence unavailable — are outside
this model, per the spec's component scope). -/
def runScrape (p : PipelineParams) (store : Store) (srcs : List SourceOutcome) :
    RunState :=
  let e := sourcesEffect p store srcs
  { store := e.store
    run := { itemsFound := e.dFound, itemsNew := e.dNew,
             itemsQualified := e.dQualified, errors := e.dErrors,
             status := "completed" } }

/-- Modelled from the spec (section 4.5): the scheduler's process-wide
state — the run-lock flag and the number of ScrapeRun rows created. -/
structure SchedulerState where
  runInProgress : Bool
  scrapeRunRows : ℕ
deriving DecidableEq

/-- Outcome of a manual trigger request. -/
inductive TriggerOutcome where
  | started
  | rejectedRunInProgress
deriving DecidableEq

/-- Modelled from the spec (section 4.5): a manual trigger while a run is
in progress is rejected immediately with RunInProgress — not queued, no
state change, no ScrapeRun row created; otherwise the run starts and one
ScrapeRun row is created. -/
def triggerRun (s : SchedulerState) : SchedulerState × TriggerOutcome :=
  if s.runInProgress then (s, TriggerOutcome.rejectedRunInProgress)
  else ({ runInProgress := true, scrapeRunRows := s.scrapeRunRows + 1 },
        TriggerOutcome.started)

/-! ## Concrete instances used by witnesses -/

/-- The empty lead store. -/
def storeEmpty : Store := { leads := [] }

/-- A concrete raw opportunity. -/
def rDemo : RawOpportunity :=
  { orgName := "City of Springfield", title := "Records Digitization RFP",
    summary := "Scan and index municipal records.", sourceUrl := "u",
    sourceType := "rss_rfp", sourceName := "PND" }

/-- A second concrete raw opportunity whose qualification fails in the
demo parameters. -/
def rDemoErr : RawOpportunity :=
  { orgName := "Acme", title := "News item", summary := "s", sourceUrl := "u2",
    sourceType := "rss_news", sourceName := "NPQ" }

/-- A concrete raw model response. -/
def rawDemo : RawQualification :=
  { confidence := 7 / 10, reasoning := "fits",
    tags := ["digital_tools", "unknown_tag"], signals := ["rfp"], isGov := true }

/-- Concrete pipeline parameters: the fixed taxonomy, threshold 0.6, and
a qualifier oracle that succeeds on rDemo and times out on anything
else. -/
def pDemo : PipelineParams :=
  { taxonomy := SERVICE_TAXONOMY
    threshold := 6 / 10
    qualify := fun r =>
      if r.title = "Records Digitization RFP" then Except.ok rawDemo
      else Except.error "timeout" }

/-! ## Helper lemmas -/

/-- Equation for itemEffect when the fingerprint already exists: the
item is skipped, counted only in items found. -/
theorem itemEffect_hit (p : PipelineParams) (store : Store) (r : RawOpportunity)
    (hex : hashExists store (fingerprint r) = true) :
    itemEffect p store r =
      { store := store, dFound := 1, dNew := 0, dQualified := 0, dErrors := [] } := by
  simp [itemEffect, hex]

/-- Equation for itemEffect on a fresh fingerprint when qualification
succeeds: the validated lead is appended and counted. -/
theorem itemEffect_fresh_ok (p : PipelineParams) (store : Store)
    (r : RawOpportunity) (raw : RawQualification)
    (hex : hashExists store (fingerprint r) = false)
    (hq : p.qualify r = Except.ok raw) :
    itemEffect p store r =
      { store := { leads := store.leads
            ++ [mkLeadOk (fingerprint r) r (parseQualification p.taxonomy raw)] }
        dFound := 1, dNew := 1
        dQualified := if p.threshold < clamp01 raw.confidence then 1 else 0
        dErrors := [] } := by
  simp [itemEffect, hex, hq, insertLeadIfAbsent, mkLeadOk, parseQualification]

/-- Equation for itemEffect on a fresh fingerprint when qualification
fails: the unscored lead is appended, counted as new, and an error note
is recorded. -/
theorem itemEffect_fresh_err (p : PipelineParams) (store : Store)
    (r : RawOpportunity) (msg : String)
    (hex : hashExists store (fingerprint r) = false)
    (hq : p.qualify r = Except.error msg) :
    itemEffect p store r =
      { store := { leads := store.leads ++ [mkLeadErr (fingerprint r) r] }
        dFound := 1, dNew := 1, dQualified := 0
        dErrors := [qualErrorNote r msg] } := by
  simp [itemEffect, hex, hq, insertLeadIfAbsent, mkLeadErr]

/-- A lead just appended is found by its own content hash. -/
theorem hashExists_append_self (store : Store) (l : Lead) :
    hashExists { leads := store.leads ++ [l] } l.contentHash = true := by
  simp [hashExists]

/-- After processing an opportunity, its fingerprint is present in the
store: either it already existed, or the lead just persisted carries it
as content hash. -/
theorem hashExists_itemEffect_self (p : PipelineParams) (store : Store)
    (r : RawOpportunity) :
    hashExists (itemEffect p store r).store (fingerprint r) = true := by
  cases hex : hashExists store (fingerprint r) with
  | true => rw [itemEffect_hit p store r hex]; exact hex
  | false =>
    cases hq : p.qualify r with
    | ok raw =>
        rw [itemEffect_fresh_ok p store r raw hex hq]
        simpa [mkLeadOk] using
          hashExists_append_self store
            (mkLeadOk (fingerprint r) r (parseQualification p.taxonomy raw))
    | error msg =>
        rw [itemEffect_fresh_err p store r msg hex hq]
        simpa [mkLeadErr] using
          hashExists_append_self store (mkLeadErr (fingerprint r) r)

/-- Any lead present after processing one item was already present, or
is the lead that item persisted, in its qualified or unscored form. -/
theorem itemEffect_leads_pres (p : PipelineParams) (P : Lead → Prop)
    (hok : ∀ fp r raw, P (mkLeadOk fp r (parseQualification p.taxonomy raw)))
    (herr : ∀ fp r, P (mkLeadErr fp r))
    (store : Store) (h0 : ∀ l ∈ store.leads, P l) (r : RawOpportunity) :
    ∀ l ∈ (itemEffect p store r).store.leads, P l := by
  intro l hl
  cases hex : hashExists store (fingerprint r) with
  | true =>
      rw [itemEffect_hit p store r hex] at hl
      exact h0 l hl
  | false =>
      cases hq : p.qualify r with
      | ok raw =>
          rw [itemEffect_fresh_ok p store r raw hex hq] at hl
          rcases List.mem_append.mp hl with h | h
          · exact h0 l h
          · rw [List.mem_singleton] at h
            exact h ▸ hok (fingerprint r) r raw
      | error msg =>
          rw [itemEffect_fresh_err p store r msg hex hq] at hl
          rcases List.mem_append.mp hl with h | h
          · exact h0 l h
          · rw [List.mem_singleton] at h
            exact h ▸ herr (fingerprint r) r

/-- Lead-shape preservation across one source's items. -/
theorem itemsEffect_leads_pres (p : PipelineParams) (P : Lead → Prop)
    (hok : ∀ fp r raw, P (mkLeadOk fp r (parseQualification p.taxonomy raw)))
    (herr : ∀ fp r, P (mkLeadErr fp r)) :
    ∀ (items : List RawOpportunity) (store : Store),
      (∀ l ∈ store.leads, P l) →
        ∀ l ∈ (itemsEffect p store items).store.leads, P l
  | [], _, h0 => h0
  | r :: rs, store, h0 =>
      itemsEffect_leads_pres p P hok herr rs (itemEffect p store r).store
        (itemEffect_leads_pres p P hok herr store h0 r)

/-- Lead-shape preservation across the sources of a run. -/
theorem sourcesEffect_leads_pres (p : PipelineParams) (P : Lead → Prop)
    (hok : ∀ fp r raw, P (mkLeadOk fp r (parseQualification p.taxonomy raw)))
    (herr : ∀ fp r, P (mkLeadErr fp r)) :
    ∀ (srcs : List SourceOutcome) (store : Store),
      (∀ l ∈ store.leads, P l) →
        ∀ l ∈ (sourcesEffect p store srcs).store.leads, P l
  | [], _, h0 => h0
  | s :: ss, store, h0 => by
      have h1 : ∀ l ∈ (sourceEffect p store s).store.leads, P l := by
        cases hres : s.result with
        | ok items =>
            simpa [sourceEffect, hres] using
              itemsEffect_leads_pres p P hok herr items store h0
        | err msg => simpa [sourceEffect, hres] using h0
      exact sourcesEffect_leads_pres p P hok herr ss (sourceEffect p store s).store h1

/-- Lead-shape preservation for a whole run. -/
theorem runScrape_leads_pres (p : PipelineParams) (P : Lead → Prop)
    (hok : ∀ fp r raw, P (mkLeadOk fp r (parseQualification p.taxonomy raw)))
    (herr : ∀ fp r, P (mkLeadErr fp r))
    (store : Store) (h0 : ∀ l ∈ store.leads, P l) (srcs : List SourceOutcome) :
    ∀ l ∈ (runScrape p store srcs).store.leads, P l :=
  sourcesEffect_leads_pres p P hok herr srcs store h0

/-- A source that fails with a SourceFetchError contributes exactly its
error note: the run over sources with the failing source removed has the
same store and the same counter deltas, and the note appears in the
error list. -/
theorem sourcesEffect_err_isolated (p : PipelineParams) (n m : String)
    (post : List SourceOutcome) :
    ∀ (pre : List SourceOutcome) (store : Store),
      (sourcesEffect p store (pre ++ ⟨n, FetchResult.err m⟩ :: post)).store
          = (sourcesEffect p store (pre ++ post)).store ∧
      (sourcesEffect p store (pre ++ ⟨n, FetchResult.err m⟩ :: post)).dFound
          = (sourcesEffect p store (pre ++ post)).dFound ∧
      (sourcesEffect p store (pre ++ ⟨n, FetchResult.err m⟩ :: post)).dNew
          = (sourcesEffect p store (pre ++ post)).dNew ∧
      (sourcesEffect p store (pre ++ ⟨n, FetchResult.err m⟩ :: post)).dQualified
          = (sourcesEffect p store (pre ++ post)).dQualified ∧
      sourceErrorNote n m
          ∈ (sourcesEffect p store (pre ++ ⟨n, FetchResult.err m⟩ :: post)).dErrors
  | [], store => by
      refine ⟨?_, ?_, ?_, ?_, ?_⟩ <;> simp [sourcesEffect, sourceEffect]
  | s :: pre, store => by
      have ih := sourcesEffect_err_isolated p n m post pre (sourceEffect p store s).store
      simp only [List.cons_append, sourcesEffect, List.append_eq]
      exact ⟨by rw [ih.1], by rw [ih.2.1], by rw [ih.2.2.1], by rw [ih.2.2.2.1],
        List.mem_append_right _ ih.2.2.2.2⟩

/-! ## Claim theorems: dashboard and schema (code in the snapshot) -/

/-- Claim C9: the LeadCard confidence badge treats a confidence score of
exactly 0 the same as a missing score — because the percentage is
computed behind a truthiness check, both render the placeholder badge
text — while every score strictly greater than 0 renders its rounded
percentage. -/
theorem C9_badge_zero_as_missing :
    badgeText (some 0) = "?" ∧ badgeText none = "?" ∧
    ∀ s : ℚ, 0 < s → badgeText (some s) = toString (jsRound (s * 100)) := by
  refine ⟨rfl, rfl, ?_⟩
  intro s hs
  have hne : s ≠ 0 := ne_of_gt hs
  simp [badgeText, confPct, hne]

/-- Witness for C9 at the concrete score 0.7: the badge renders the
rounded percentage, not the placeholder. -/
theorem C9_badge_zero_as_missing_witness :
    (0 : ℚ) < 7 / 10 ∧
    badgeText (some (7 / 10)) = toString (jsRound ((7 / 10 : ℚ) * 100)) :=
  ⟨by norm_num, C9_badge_zero_as_missing.2.2 (7 / 10) (by norm_num)⟩

/-- Claim C10: handleStatusChange applies the status change to the
locally displayed list unconditionally before (and regardless of) the
backend PATCH; when the PATCH fails, or the dashboard is in demo mode
and no PATCH is sent, the persisted list is unchanged while the local
change is retained, so the displayed status diverges from the persisted
status. -/
theorem C10_optimistic_never_rolled_back (localLeads backend : List DashLead)
    (isLive patchFails : Bool) (leadId : ℕ) (newStatus : String)
    (h : isLive = false ∨ patchFails = true) :
    (handleStatusChange localLeads backend isLive leadId newStatus patchFails).1
      = applyLocalStatus localLeads leadId newStatus ∧
    (handleStatusChange localLeads backend isLive leadId newStatus patchFails).2
      = backend := by
  refine ⟨rfl, ?_⟩
  rcases h with h | h
  · subst h; rfl
  · subst h; cases isLive <;> rfl

/-- Witness for C10 at a concrete failing-PATCH execution: the displayed
lead ends in status qualified while the persisted lead stays new. -/
theorem C10_optimistic_never_rolled_back_witness :
    ((true : Bool) = false ∨ (true : Bool) = true) ∧
    (handleStatusChange [⟨1, "new"⟩] [⟨1, "new"⟩] true 1 "qualified" true).1
      = applyLocalStatus [⟨1, "new"⟩] 1 "qualified" ∧
    (handleStatusChange [⟨1, "new"⟩] [⟨1, "new"⟩] true 1 "qualified" true).2
      = [⟨1, "new"⟩] :=
  ⟨Or.inr rfl,
   C10_optimistic_never_rolled_back [⟨1, "new"⟩] [⟨1, "new"⟩] true true 1
     "qualified" (Or.inr rfl)⟩

/-- Claim C5, counterexample: the dashboard offers the transition
reviewing → qualified (the Qualify button renders for a lead whose
status is reviewing, LeadCard actions block), and that edge is not among
the claim's allowed edges, so a status change does not move only along
the claimed edge set. -/
theorem C5_status_machine_counterexample :
    "qualified" ∈ statusChangeTargets "reviewing" ∧
    claimedEdge "reviewing" "qualified" = false := by
  constructor
  · decide
  · decide

/-- Claim C5, amended: every status change the dashboard offers moves
along an edge of the amended edge set — the claimed edges plus
reviewing → qualified and reviewing → disqualified — and its target is
one of the six enumerated lead_status values; and an attempt to store a
status value outside the enumerated set fails enum validation rather
than being stored. -/
theorem C5_status_machine_amended :
    (∀ f t, t ∈ statusChangeTargets f → amendedEdge f t = true ∧ t ∈ lead_status) ∧
    (∀ s, validateLeadStatus s = false → storeStatus s = none) := by
  constructor
  · intro f t ht
    rcases List.mem_append.mp ht with h1 | h2
    · split at h1
      case isTrue hc =>
        have hf : f = "new" ∨ f = "reviewing" := by
          simpa using hc
        have ht' : t = "qualified" ∨ t = "disqualified" := by
          simpa using h1
        rcases hf with hf | hf <;> rcases ht' with ht' | ht' <;>
          subst hf <;> subst ht' <;> exact ⟨by decide, by decide⟩
      case isFalse hc =>
        simp at h1
    · split at h2
      case isTrue hc =>
        have ht' : t = "contacted" := by simpa using h2
        subst hc; subst ht'
        exact ⟨by decide, by decide⟩
      case isFalse hc =>
        simp at h2
  · intro s hs
    simp [storeStatus, hs]

/-- Witness for C5's amended theorem at concrete inputs: the edge
reviewing → qualified offered by the dashboard is an amended edge with
an enumerated target, and the unrecognized value bogus fails
validation. -/
theorem C5_status_machine_amended_witness :
    (amendedEdge "reviewing" "qualified" = true ∧ "qualified" ∈ lead_status) ∧
    storeStatus "bogus" = none :=
  ⟨C5_status_machine_amended.1 "reviewing" "qualified" (by decide),
   C5_status_machine_amended.2 "bogus" (by decide)⟩

/-- Claim C6: a manual trigger while a run is in progress is rejected
immediately with the RunInProgress outcome — the scheduler state is
unchanged, so nothing is queued, no second overlapping run starts, and
no second ScrapeRun row is created. -/
theorem C6_at_most_one_concurrent_run (s : SchedulerState)
    (h : s.runInProgress = true) :
    (triggerRun s).2 = TriggerOutcome.rejectedRunInProgress ∧
    (triggerRun s).1 = s ∧
    (triggerRun s).1.scrapeRunRows = s.scrapeRunRows := by
  simp [triggerRun, h]

/-- Witness for C6 at a concrete in-progress scheduler state. -/
theorem C6_at_most_one_concurrent_run_witness :
    (triggerRun { runInProgress := true, scrapeRunRows := 1 }).2
        = TriggerOutcome.rejectedRunInProgress ∧
    (triggerRun { runInProgress := true, scrapeRunRows := 1 }).1
        = { runInProgress := true, scrapeRunRows := 1 } ∧
    (triggerRun { runInProgress := true, scrapeRunRows := 1 }).1.scrapeRunRows
        = ({ runInProgress := true, scrapeRunRows := 1 } : SchedulerState).scrapeRunRows :=
  C6_at_most_one_concurrent_run { runInProgress := true, scrapeRunRows := 1 } rfl

/-! ## Claim theorems: pipeline (modelled from the spec) -/

/-- Claim C1: fingerprinting is deterministic in the normalized
(title, organization name, summary) fields — two RawOpportunities with
identical normalized fields yield the same ContentFingerprint — and
ingestion is idempotent: processing the second of two such
opportunities after the first leaves the lead store unchanged (no
second Lead; the content hash is unique per lead) and contributes 0 to
items_new. -/
theorem C1_content_idempotence (p : PipelineParams) (store : Store)
    (r1 r2 : RawOpportunity)
    (hT : normalizeText r1.title = normalizeText r2.title)
    (hO : normalizeText r1.orgName = normalizeText r2.orgName)
    (hS : normalizeText r1.summary = normalizeText r2.summary) :
    fingerprint r1 = fingerprint r2 ∧
    (itemEffect p (itemEffect p store r1).store r2).store
      = (itemEffect p store r1).store ∧
    (itemEffect p (itemEffect p store r1).store r2).dNew = 0 := by
  have hfp : fingerprint r1 = fingerprint r2 := by
    unfold fingerprint
    rw [hT, hO, hS]
  have hex : hashExists (itemEffect p store r1).store (fingerprint r2) = true := by
    rw [← hfp]
    exact hashExists_itemEffect_self p store r1
  refine ⟨hfp, ?_, ?_⟩ <;>
    rw [itemEffect_hit p (itemEffect p store r1).store r2 hex]

/-- Witness for C1: re-ingesting the same concrete opportunity leaves
the store unchanged and reports 0 new items. -/
theorem C1_content_idempotence_witness :
    fingerprint rDemo = fingerprint rDemo ∧
    (itemEffect pDemo (itemEffect pDemo storeEmpty rDemo).store rDemo).store
      = (itemEffect pDemo storeEmpty rDemo).store ∧
    (itemEffect pDemo (itemEffect pDemo storeEmpty rDemo).store rDemo).dNew = 0 :=
  C1_content_idempotence pDemo storeEmpty rDemo rDemo rfl rfl rfl

/-- Claim C3: when qualification of a fresh item fails with a
QualificationError, the lead is still persisted — with null confidence
and status new — the run's errors contain a note referencing that item,
and the run still completes. -/
theorem C3_qual_failure_still_persists (p : PipelineParams) (store : Store)
    (r : RawOpportunity) (msg name : String)
    (hfresh : hashExists store (fingerprint r) = false)
    (hq : p.qualify r = Except.error msg) :
    mkLeadErr (fingerprint r) r
        ∈ (runScrape p store [⟨name, FetchResult.ok [r]⟩]).store.leads ∧
    (mkLeadErr (fingerprint r) r).confidence = none ∧
    (mkLeadErr (fingerprint r) r).status = "new" ∧
    qualErrorNote r msg ∈ (runScrape p store [⟨name, FetchResult.ok [r]⟩]).run.errors ∧
    (runScrape p store [⟨name, FetchResult.ok [r]⟩]).run.status = "completed" := by
  have hstep := itemEffect_fresh_err p store r msg hfresh hq
  refine ⟨?_, rfl, rfl, ?_, rfl⟩ <;>
    simp [runScrape, sourcesEffect, sourceEffect, itemsEffect, hstep]

/-- Witness for C3 at a concrete run: the demo qualifier times out on
rDemoErr, yet the lead is persisted unscored and the run completes with
an error note. -/
theorem C3_qual_failure_still_persists_witness :
    mkLeadErr (fingerprint rDemoErr) rDemoErr
        ∈ (runScrape pDemo storeEmpty [⟨"NPQ", FetchResult.ok [rDemoErr]⟩]).store.leads ∧
    (mkLeadErr (fingerprint rDemoErr) rDemoErr).confidence = none ∧
    (mkLeadErr (fingerprint rDemoErr) rDemoErr).status = "new" ∧
    qualErrorNote rDemoErr "timeout"
        ∈ (runScrape pDemo storeEmpty [⟨"NPQ", FetchResult.ok [rDemoErr]⟩]).run.errors ∧
    (runScrape pDemo storeEmpty [⟨"NPQ", FetchResult.ok [rDemoErr]⟩]).run.status
        = "completed" :=
  C3_qual_failure_still_persists pDemo storeEmpty rDemoErr "timeout" "NPQ" rfl rfl

/-- Claim C7: for a newly persisted lead (fresh fingerprint, qualifier
returned a result), the run's items_qualified delta is 1 exactly when
the persisted (clamped) confidence exceeds the configured threshold; at
or below the threshold the item contributes only to items_new. -/
theorem C7_qualified_counter_iff_threshold (p : PipelineParams) (store : Store)
    (r : RawOpportunity) (raw : RawQualification)
    (hfresh : hashExists store (fingerprint r) = false)
    (hq : p.qualify r = Except.ok raw) :
    (itemEffect p store r).dNew = 1 ∧
    ((itemEffect p store r).dQualified = 1 ↔ p.threshold < clamp01 raw.confidence) ∧
    (clamp01 raw.confidence ≤ p.threshold → (itemEffect p store r).dQualified = 0) := by
  have hstep := itemEffect_fresh_ok p store r raw hfresh hq
  refine ⟨?_, ?_, ?_⟩
  · rw [hstep]
  · rw [hstep]
    by_cases h : p.threshold < clamp01 raw.confidence <;> simp [h]
  · intro hle
    rw [hstep]
    simp [not_lt.mpr hle]

/-- Witness for C7 at a concrete item: the demo qualifier returns
confidence 0.7 against threshold 0.6. -/
theorem C7_qualified_counter_iff_threshold_witness :
    (itemEffect pDemo storeEmpty rDemo).dNew = 1 ∧
    ((itemEffect pDemo storeEmpty rDemo).dQualified = 1
        ↔ pDemo.threshold < clamp01 rawDemo.confidence) ∧
    (clamp01 rawDemo.confidence ≤ pDemo.threshold
        → (itemEffect pDemo storeEmpty rDemo).dQualified = 0) :=
  C7_qualified_counter_iff_threshold pDemo storeEmpty rDemo rawDemo rfl rfl

/-- Claim C2: the qualifier clamps any returned confidence into [0, 1]
before the lead is persisted, so on any run starting from a store whose
leads respect the bound, every persisted lead with a confidence score
has it in the closed interval [0, 1]. -/
theorem C2_confidence_bounded (p : PipelineParams) (store : Store)
    (srcs : List SourceOutcome)
    (h0 : ∀ l ∈ store.leads, ∀ c, l.confidence = some c → 0 ≤ c ∧ c ≤ 1) :
    (∀ x : ℚ, 0 ≤ clamp01 x ∧ clamp01 x ≤ 1) ∧
    ∀ l ∈ (runScrape p store srcs).store.leads,
      ∀ c, l.confidence = some c → 0 ≤ c ∧ c ≤ 1 := by
  have hbound : ∀ x : ℚ, 0 ≤ clamp01 x ∧ clamp01 x ≤ 1 := by
    intro x
    exact ⟨le_max_left 0 (min 1 x), max_le (by norm_num) (min_le_left 1 x)⟩
  refine ⟨hbound, ?_⟩
  refine runScrape_leads_pres p _ ?_ ?_ store h0 srcs
  · intro fp r raw c hc
    simp only [mkLeadOk, parseQualification, Option.some.injEq] at hc
    exact hc ▸ hbound raw.confidence
  · intro fp r c hc
    simp [mkLeadErr] at hc

/-- Witness for C2 at a concrete run from the empty store. -/
theorem C2_confidence_bounded_witness :
    (∀ x : ℚ, 0 ≤ clamp01 x ∧ clamp01 x ≤ 1) ∧
    ∀ l ∈ (runScrape pDemo storeEmpty [⟨"PND", FetchResult.ok [rDemo]⟩]).store.leads,
      ∀ c, l.confidence = some c → 0 ≤ c ∧ c ≤ 1 :=
  C2_confidence_bounded pDemo storeEmpty [⟨"PND", FetchResult.ok [rDemo]⟩]
    (by intro l hl; simp [storeEmpty] at hl)

/-- Claim C4: per-source failure isolation — a source whose fetch fails
with a SourceFetchError, wherever it sits in the run, leaves the run
with exactly the store and counters of the same run without it (every
other source is still attempted and its leads persisted), the error is
recorded against the run, and the run finishes with status completed,
not failed. -/
theorem C4_source_failure_isolation (p : PipelineParams) (store : Store)
    (pre post : List SourceOutcome) (name msg : String) :
    (runScrape p store (pre ++ ⟨name, FetchResult.err msg⟩ :: post)).run.status
        = "completed" ∧
    sourceErrorNote name msg
        ∈ (runScrape p store (pre ++ ⟨name, FetchResult.err msg⟩ :: post)).run.errors ∧
    (runScrape p store (pre ++ ⟨name, FetchResult.err msg⟩ :: post)).store
        = (runScrape p store (pre ++ post)).store ∧
    (runScrape p store (pre ++ ⟨name, FetchResult.err msg⟩ :: post)).run.itemsFound
        = (runScrape p store (pre ++ post)).run.itemsFound ∧
    (runScrape p store (pre ++ ⟨name, FetchResult.err msg⟩ :: post)).run.itemsNew
        = (runScrape p store (pre ++ post)).run.itemsNew ∧
    (runScrape p store (pre ++ ⟨name, FetchResult.err msg⟩ :: post)).run.itemsQualified
        = (runScrape p store (pre ++ post)).run.itemsQualified := by
  have h := sourcesEffect_err_isolated p name msg post pre store
  exact ⟨rfl, h.2.2.2.2, h.1, h.2.1, h.2.2.1, h.2.2.2.1⟩

/-- Claim C8: a parsed qualification keeps exactly the service-match
tags that are members of the fixed taxonomy — an unknown tag is dropped
from the result, not stored and not an error — so on any run over the
fixed taxonomy starting from a store whose leads respect it, every
persisted service_matches list contains only taxonomy members. -/
theorem C8_service_matches_in_taxonomy (p : PipelineParams) (store : Store)
    (srcs : List SourceOutcome) (hp : p.taxonomy = SERVICE_TAXONOMY)
    (h0 : ∀ l ∈ store.leads, ∀ t ∈ l.serviceMatches, t ∈ SERVICE_TAXONOMY) :
    (∀ raw t, t ∈ (parseQualification SERVICE_TAXONOMY raw).serviceMatches
        ↔ (t ∈ raw.tags ∧ t ∈ SERVICE_TAXONOMY)) ∧
    ∀ l ∈ (runScrape p store srcs).store.leads,
      ∀ t ∈ l.serviceMatches, t ∈ SERVICE_TAXONOMY := by
  have hchar : ∀ (taxonomy : List String) (raw : RawQualification) (t : String),
      t ∈ (parseQualification taxonomy raw).serviceMatches
        ↔ (t ∈ raw.tags ∧ t ∈ taxonomy) := by
    intro taxonomy raw t
    simp [parseQualification]
  refine ⟨hchar SERVICE_TAXONOMY, ?_⟩
  refine runScrape_leads_pres p _ ?_ ?_ store h0 srcs
  · intro fp r raw t ht
    simp only [mkLeadOk] at ht
    rw [hp] at ht
    exact ((hchar SERVICE_TAXONOMY raw t).mp ht).2
  · intro fp r t ht
    simp [mkLeadErr] at ht

/-- Witness for C8 at a concrete run: the demo response carries one
taxonomy tag and one unknown tag. -/
theorem C8_service_matches_in_taxonomy_witness :
    (∀ raw t, t ∈ (parseQualification SERVICE_TAXONOMY raw).serviceMatches
        ↔ (t ∈ raw.tags ∧ t ∈ SERVICE_TAXONOMY)) ∧
    ∀ l ∈ (runScrape pDemo storeEmpty [⟨"PND", FetchResult.ok [rDemo]⟩]).store.leads,
      ∀ t ∈ l.serviceMatches, t ∈ SERVICE_TAXONOMY :=
  C8_service_matches_in_taxonomy pDemo storeEmpty [⟨"PND", FetchResult.ok [rDemo]⟩]
    rfl (by intro l hl; simp [storeEmpty] at hl)

end BD
